import Mathlib

/-!
Shallow embedding of the OAuth relay/local login core of the `ndl` repository.

Sources embedded:
- `ndld/src/auth.rs` (AuthState, AuthSession, SessionStore, OAuthConfig)
- `ndld/src/routes.rs` (auth_callback, poll_auth, FallbackIpKeyExtractor and the
  header helpers, error_html/success_html)
- `ndl/src/oauth.rs` (the local callback listener, authorization_url of the
  local flow, hosted_login poll loop)

Modelling conventions: timestamps are natural-number seconds (Instant
arithmetic is non-negative, matching Nat subtraction); the DashMap of
sessions is an association list keyed by session id whose insert and remove
act on every entry of that key, mirroring map semantics; network effects
(reqwest calls, the system browser) are oracle parameters passed to the
functions that perform them; String parsing of IP addresses (the Rust
std `str::parse::<IpAddr>`) is likewise an oracle parameter, since the
extraction logic under verification is independent of the parser itself.
-/

namespace Ndl

/-- Rust enum `AuthState` from `ndld/src/auth.rs`: Pending | Completed { access_token } |
Failed { error }. -/
inductive AuthState where
  | Pending : AuthState
  | Completed (access_token : String) : AuthState
  | Failed (error : String) : AuthState
deriving DecidableEq, Repr

/-- A state is terminal when it matches `Completed { .. } | Failed { .. }`,
exactly the `matches!` test in `poll_auth` (`ndld/src/routes.rs`). -/
def AuthState.isTerminal : AuthState → Bool
  | .Pending => false
  | .Completed _ => true
  | .Failed _ => true

/-- Rust struct `AuthSession` from `ndld/src/auth.rs`: id, state (behind a RwLock in the
source; the lock disappears in this sequential model), created_at. -/
structure AuthSession where
  id : String
  state : AuthState
  created_at : Nat
deriving DecidableEq, Repr

/-- Constant `SESSION_TTL` from `ndld/src/auth.rs` (300 seconds). -/
def SESSION_TTL : Nat := 300

/-- Method `AuthSession::is_expired`: `created_at.elapsed() > SESSION_TTL`, with
`elapsed` rendered as `now - created_at`. -/
def AuthSession.is_expired (s : AuthSession) (now : Nat) : Bool :=
  now - s.created_at > SESSION_TTL

/-- The DashMap of `SessionStore`, as an association list of sessions. -/
abbrev SessionStore := List AuthSession

/-- Constructor `AuthSession::new`, with the fresh Uuid and the current Instant passed in
explicitly (both are effects in the source). -/
def AuthSession.new (id : String) (now : Nat) : AuthSession :=
  { id := id, state := .Pending, created_at := now }

/-- DashMap insert: the new entry replaces any entry of the same key. -/
def SessionStore.insert (store : SessionStore) (s : AuthSession) : SessionStore :=
  s :: List.filter (fun t => t.id ≠ s.id) store

/-- Method `SessionStore::create_session`: insert a fresh `Pending` session. -/
def SessionStore.create_session (store : SessionStore) (id : String) (now : Nat) :
    SessionStore × AuthSession :=
  let session := AuthSession.new id now
  (store.insert session, session)

/-- Method `SessionStore::get_session`. -/
def SessionStore.get_session (store : SessionStore) (id : String) : Option AuthSession :=
  List.find? (fun s => s.id = id) store

/-- Method `SessionStore::remove_session` (idempotent removal by key). -/
def SessionStore.remove_session (store : SessionStore) (id : String) : SessionStore :=
  List.filter (fun s => s.id ≠ id) store

/-- Method `SessionStore::cleanup_expired`: `retain(|_, session| !session.is_expired())`. -/
def SessionStore.cleanup_expired (store : SessionStore) (now : Nat) : SessionStore :=
  List.filter (fun s => ! s.is_expired now) store

/-- Writing through the RwLock of a stored session
(`*session.state.write().await = new_state`): every store entry of that id
takes the new state. -/
def SessionStore.set_state (store : SessionStore) (id : String) (st : AuthState) :
    SessionStore :=
  List.map (fun s => if s.id = id then { s with state := st } else s) store

/-- Rust struct `TokenResponse` from `ndld/src/auth.rs`. -/
structure TokenResponse where
  access_token : String
  user_id : Nat
deriving DecidableEq, Repr

/-- Rust struct `CallbackParams` from `ndld/src/routes.rs`. -/
structure CallbackParams where
  code : Option String
  state : Option String
  error : Option String
  error_description : Option String
deriving DecidableEq, Repr

/-- The two HTML pages the callback handler can render. -/
inductive Page where
  | success : Page
  | failure (msg : String) : Page
deriving DecidableEq, Repr

/-- An HTTP response as observed by the end user: status, content type and
which page was rendered. -/
structure HttpResponse where
  status : Nat
  contentType : String
  page : Page
deriving DecidableEq, Repr

/-- Function `error_html` (`ndld/src/routes.rs`): Maud markup, rendered by axum as a
`200 text/html` response carrying the error message. -/
def error_html (msg : String) : HttpResponse :=
  { status := 200, contentType := "text/html", page := .failure msg }

/-- Response `Html(success_html())`: axum renders it as `200 text/html`. -/
def success_response : HttpResponse :=
  { status := 200, contentType := "text/html", page := .success }

/-- Result of one `auth_callback` invocation: the HTTP response, the store
afterwards, and the authorization code sent to the provider for exchange
(`none` when no exchange was attempted). -/
structure CallbackResult where
  response : HttpResponse
  store : SessionStore
  exchangedCode : Option String
deriving DecidableEq, Repr

/-- Handler `auth_callback` from `ndld/src/routes.rs`. The provider token exchange
(`state.oauth.exchange_code`) is the oracle `exchange`. -/
def auth_callback (exchange : String → Except String TokenResponse)
    (store : SessionStore) (params : CallbackParams) : CallbackResult :=
  match params.state with
  | none => ⟨error_html "Missing state parameter", store, none⟩
  | some session_id =>
    match store.get_session session_id with
    | none => ⟨error_html "Session not found or expired", store, none⟩
    | some _session =>
      match params.error with
      | some error =>
        let error_msg := params.error_description.getD error
        ⟨error_html error_msg, store.set_state session_id (.Failed error_msg), none⟩
      | none =>
        match params.code with
        | none =>
          let error := "Missing authorization code"
          ⟨error_html error, store.set_state session_id (.Failed error), none⟩
        | some code =>
          match exchange code with
          | .ok token =>
            ⟨success_response,
              store.set_state session_id (.Completed token.access_token), some code⟩
          | .error e =>
            ⟨error_html e, store.set_state session_id (.Failed e), some code⟩

/-- Outcome of `poll_auth`: `200` with the state as JSON, or `404` with an
error body. -/
inductive PollOutcome where
  | ok (state : AuthState) : PollOutcome
  | notFound (error : String) : PollOutcome
deriving DecidableEq, Repr

/-- Handler `poll_auth` from `ndld/src/routes.rs`: 404 when absent; otherwise read the
state, and remove the session exactly when the state read is terminal. -/
def poll_auth (store : SessionStore) (session_id : String) :
    PollOutcome × SessionStore :=
  match store.get_session session_id with
  | none => (.notFound "Session not found or expired", store)
  | some session =>
    let auth_state := session.state
    if auth_state.isTerminal then
      (.ok auth_state, store.remove_session session_id)
    else
      (.ok auth_state, store)

/-- Rust struct `StartAuthResponse` from `ndld/src/routes.rs`. -/
structure StartAuthResponse where
  session_id : String
  auth_url : String
deriving DecidableEq, Repr

/-- UTF-8 encoding of one scalar value, as the list of its byte values.
The `urlencoding` crate percent-encodes the UTF-8 bytes of its input. -/
def utf8Bytes (c : Char) : List Nat :=
  let n := c.toNat
  if n < 0x80 then [n]
  else if n < 0x800 then
    [0xC0 ||| (n >>> 6), 0x80 ||| (n &&& 0x3F)]
  else if n < 0x10000 then
    [0xE0 ||| (n >>> 12), 0x80 ||| ((n >>> 6) &&& 0x3F), 0x80 ||| (n &&& 0x3F)]
  else
    [0xF0 ||| (n >>> 18), 0x80 ||| ((n >>> 12) &&& 0x3F),
      0x80 ||| ((n >>> 6) &&& 0x3F), 0x80 ||| (n &&& 0x3F)]

/-- Bytes the `urlencoding` crate leaves unencoded: ASCII alphanumerics and
the characters minus, dot, underscore, tilde. -/
def isUrlSafeByte (b : Nat) : Bool :=
  (48 ≤ b && b ≤ 57) || (65 ≤ b && b ≤ 90) || (97 ≤ b && b ≤ 122) ||
    b == 45 || b == 46 || b == 95 || b == 126

/-- Upper-case hexadecimal digit for a value below 16. -/
def hexUpperDigit (n : Nat) : Char :=
  if n < 10 then Char.ofNat (48 + n) else Char.ofNat (55 + n)

/-- Percent-encoding of one byte: kept verbatim when safe, else rendered as
a percent sign and two upper-case hex digits. -/
def encodeByte (b : Nat) : List Char :=
  if isUrlSafeByte b then [Char.ofNat b]
  else ['%', hexUpperDigit (b / 16), hexUpperDigit (b % 16)]

/-- Function `urlencoding::encode`: percent-encode the UTF-8 bytes of the
input string. -/
def urlencode (s : String) : String :=
  String.mk ((s.data.flatMap utf8Bytes).flatMap encodeByte)

/-- Rust struct `OAuthConfig` from `ndld/src/auth.rs` (the relay side). -/
structure OAuthConfig where
  client_id : String
  client_secret : String
  public_url : String
deriving DecidableEq, Repr

/-- Method `OAuthConfig::redirect_uri` (`ndld/src/auth.rs`). -/
def OAuthConfig.redirect_uri (c : OAuthConfig) : String :=
  c.public_url ++ "/auth/callback"

/-- Method `OAuthConfig::authorization_url` (`ndld/src/auth.rs`): the format
string rendered with client id, percent-encoded redirect URI and the state
token. -/
def OAuthConfig.authorization_url (c : OAuthConfig) (state : String) : String :=
  "https://threads.net/oauth/authorize?client_id=" ++ c.client_id ++
    "&redirect_uri=" ++ urlencode c.redirect_uri ++
    "&scope=threads_basic,threads_read_replies,threads_manage_replies,threads_content_publish&response_type=code&state=" ++
    state

/-- Handler `start_auth` (`ndld/src/routes.rs`): create a session and return
its id together with `authorization_url(&session.id)` — the state token of
the relay flow is the session id itself. -/
def start_auth (store : SessionStore) (oauth : OAuthConfig) (id : String) (now : Nat) :
    SessionStore × StartAuthResponse :=
  let r := store.create_session id now
  (r.1, { session_id := r.2.id, auth_url := oauth.authorization_url r.2.id })

/-- Constant `OAUTH_PORT` from `ndl/src/oauth.rs`. -/
def OAUTH_PORT : Nat := 1337

/-- Rust struct `OAuthConfig` from `ndl/src/oauth.rs` (the local flow);
renamed here to avoid clashing with the relay-side struct of the same
source name. -/
structure LocalOAuthConfig where
  client_id : String
  client_secret : String
  redirect_uri : String
deriving DecidableEq, Repr

/-- Constructor `OAuthConfig::new` of the local flow: the redirect URI is
`https://localhost:{OAUTH_PORT}/callback`. -/
def LocalOAuthConfig.new (client_id client_secret : String) : LocalOAuthConfig :=
  { client_id := client_id, client_secret := client_secret,
    redirect_uri := "https://localhost:" ++ toString OAUTH_PORT ++ "/callback" }

/-- Method `OAuthConfig::authorization_url` of the local flow
(`ndl/src/oauth.rs`): the format string carries client id, percent-encoded
redirect URI, scope and response_type, and nothing else. -/
def LocalOAuthConfig.authorization_url (c : LocalOAuthConfig) : String :=
  "https://threads.net/oauth/authorize?client_id=" ++ c.client_id ++
    "&redirect_uri=" ++ urlencode c.redirect_uri ++
    "&scope=threads_basic,threads_read_replies,threads_manage_replies,threads_content_publish&response_type=code"

/-- IP addresses as produced by `str::parse::<IpAddr>`. -/
inductive IpAddr where
  | v4 (a b c d : Nat) : IpAddr
  | v6 (segments : List Nat) : IpAddr
deriving DecidableEq, Repr

/-- The three headers `FallbackIpKeyExtractor` inspects. A header that is
absent, or whose value fails `HeaderValue::to_str`, is `none` (both cases
make the Rust `and_then` chain yield `None`). -/
structure Headers where
  x_forwarded_for : Option String
  x_real_ip : Option String
  forwarded : Option String

/-- Rust `str::trim_matches`: strip matching characters from both ends. -/
def trimMatches (p : Char → Bool) (s : String) : String :=
  String.mk (((s.data.dropWhile p).reverse.dropWhile p).reverse)

/-- Helper `maybe_x_forwarded_for` (`ndld/src/routes.rs`): first
comma-separated entry of `X-Forwarded-For` that parses as an address. The
std address parser is the oracle `parse`. -/
def maybe_x_forwarded_for (parse : String → Option IpAddr) (headers : Headers) :
    Option IpAddr :=
  headers.x_forwarded_for.bind fun s =>
    (s.splitOn ",").findSome? fun part => parse part.trim

/-- Helper `maybe_x_real_ip` (`ndld/src/routes.rs`). -/
def maybe_x_real_ip (parse : String → Option IpAddr) (headers : Headers) :
    Option IpAddr :=
  headers.x_real_ip.bind fun s => parse s

/-- Helper `maybe_forwarded` (`ndld/src/routes.rs`): first
semicolon-separated part of a `Forwarded` header of the shape `for=...`,
with surrounding quotes and square brackets stripped before parsing. -/
def maybe_forwarded (parse : String → Option IpAddr) (headers : Headers) :
    Option IpAddr :=
  headers.forwarded.bind fun s =>
    (s.splitOn ";").findSome? fun part0 =>
      let part := part0.trim
      if part.toLower.startsWith "for=" then
        parse (trimMatches (fun c => c == '"' || c == '[' || c == ']') (part.drop 4))
      else
        none

/-- Error type of the `tower_governor` key extractor interface. The
extractor under verification never constructs it. -/
inductive GovernorError where
  | unableToExtractKey : GovernorError
  | other (msg : String) : GovernorError
deriving DecidableEq, Repr

/-- The inputs `FallbackIpKeyExtractor::extract` reads from a request: the
headers and the ip of the `ConnectInfo<SocketAddr>` extension when present. -/
structure RateLimitRequest where
  headers : Headers
  peer_addr : Option IpAddr

/-- Method `FallbackIpKeyExtractor::extract` (`ndld/src/routes.rs`): the
`or_else` chain over the three headers and the peer address, with
`unwrap_or` of 127.0.0.1, always returning `Ok`. -/
def FallbackIpKeyExtractor.extract (parse : String → Option IpAddr)
    (req : RateLimitRequest) : Except GovernorError IpAddr :=
  let ip :=
    ((((maybe_x_forwarded_for parse req.headers).orElse
        (fun _ => maybe_x_real_ip parse req.headers)).orElse
        (fun _ => maybe_forwarded parse req.headers)).orElse
        (fun _ => req.peer_addr)).getD (.v4 127 0 0 1)
  .ok ip

/-- Rust struct `CallbackParams` from `ndl/src/oauth.rs` (the local
listener); renamed to avoid clashing with the relay-side struct. -/
structure LocalCallbackParams where
  code : Option String
  error : Option String
  error_description : Option String
deriving DecidableEq, Repr

/-- Rust enum `OAuthError` from `ndl/src/oauth.rs`. -/
inductive OAuthError where
  | CertGeneration (msg : String) : OAuthError
  | TlsConfig (msg : String) : OAuthError
  | AuthorizationDenied (msg : String) : OAuthError
  | ChannelClosed : OAuthError
  | ServerShutdown : OAuthError
  | TokenExchange (msg : String) : OAuthError
  | BrowserOpen (msg : String) : OAuthError
  | HostedAuth (msg : String) : OAuthError
  | SessionTimeout : OAuthError
deriving DecidableEq, Repr

deriving instance DecidableEq for Except

/-- The value the route closure of `/callback` computes from the query
parameters: the code when present, else `AuthorizationDenied` with
`error_description`, falling back to `error`, falling back to a fixed
message. -/
def callbackOutcome (params : LocalCallbackParams) : Except OAuthError String :=
  match params.code with
  | some code => .ok code
  | none =>
    .error (.AuthorizationDenied
      (params.error_description.getD (params.error.getD "Unknown error")))

/-- Marker for the static page `CALLBACK_HTML` every `/callback` request
receives (the body is constant; only its identity matters here). -/
def CALLBACK_HTML : String := "ndl - Authorization Complete"

/-- State of the take-once delivery primitive of `wait_for_callback`:
whether the `Arc<Mutex<Option<Sender>>>` slot still holds the sender, and
the values sent into the oneshot channel so far. -/
structure ListenerState where
  txSlot : Bool
  delivered : List (Except OAuthError String)
deriving DecidableEq, Repr

/-- The listener starts with the sender present and nothing delivered. -/
def ListenerState.init : ListenerState :=
  { txSlot := true, delivered := [] }

/-- One `/callback` request through the route closure of
`wait_for_callback`: compute the outcome, send it only when
`tx.lock().unwrap().take()` yields the sender, and always return the static
page. -/
def handle_callback (st : ListenerState) (params : LocalCallbackParams) :
    ListenerState × String :=
  let result := callbackOutcome params
  if st.txSlot then
    ({ txSlot := false, delivered := st.delivered ++ [result] }, CALLBACK_HTML)
  else
    (st, CALLBACK_HTML)

/-- A sequence of `/callback` requests handled in arrival order, returning
the final listener state and the page each request received. -/
def run_callbacks (st : ListenerState) (reqs : List LocalCallbackParams) :
    ListenerState × List String :=
  match reqs with
  | [] => (st, [])
  | r :: rest =>
    let step := handle_callback st r
    let tail := run_callbacks step.1 rest
    (tail.1, step.2 :: tail.2)

/-- Which arm of the `tokio::select!` in `wait_for_callback` fires first:
the oneshot receiver resolves with a sent value, the receiver fails because
the sender was dropped unsent, or the server future terminates. -/
inductive RaceEvent where
  | delivery (r : Except OAuthError String) : RaceEvent
  | channelClosed : RaceEvent
  | serverExit : RaceEvent
deriving DecidableEq, Repr

/-- Resolution of the `tokio::select!`: a delivered value is returned as is,
a closed channel becomes `ChannelClosed`, a terminated server becomes
`ServerShutdown`. -/
def wait_for_callback_result : RaceEvent → Except OAuthError String
  | .delivery r => r
  | .channelClosed => .error .ChannelClosed
  | .serverExit => .error .ServerShutdown

/-- Rust enum `PollStatus` from `ndl/src/oauth.rs`. -/
inductive PollStatus where
  | Pending : PollStatus
  | Completed (access_token : String) : PollStatus
  | Failed (error : String) : PollStatus
deriving DecidableEq, Repr

/-- One observed poll attempt of the hosted flow: either the reqwest `send`
failed, or a response arrived with a status code and, for the body, the
result of parsing it as `PollStatus` JSON. -/
inductive PollHttpResult where
  | netErr (e : String) : PollHttpResult
  | resp (status : Nat) (body : Except String PollStatus) : PollHttpResult
deriving DecidableEq, Repr

/-- Predicate `StatusCode::is_success` of reqwest: 200 through 299. -/
def statusIsSuccess (status : Nat) : Bool :=
  200 ≤ status && status < 300

/-- The fixed poll interval of `hosted_login` in seconds
(`Duration::from_secs(2)`). -/
def POLL_INTERVAL_SECS : Nat := 2

/-- The bound of the poll loop of `hosted_login` (`for _ in 0..150`). -/
def POLL_MAX_ATTEMPTS : Nat := 150

/-- The poll loop of `hosted_login` (`ndl/src/oauth.rs`), with the network
as the oracle `responses` (attempt index to observed result) and the
remaining iterations as fuel. A send failure aborts with `HostedAuth`;
404 yields `SessionTimeout`; a non-success status continues; a body that
fails to parse aborts with `HostedAuth`; `Pending` continues; `Completed`
returns the token with user_id 0; `Failed` aborts with
`AuthorizationDenied`; an exhausted loop yields `SessionTimeout`. -/
def hosted_poll_loop (responses : Nat → PollHttpResult) :
    Nat → Nat → Except OAuthError TokenResponse
  | 0, _ => .error .SessionTimeout
  | fuel + 1, i =>
    match responses i with
    | .netErr e => .error (.HostedAuth ("Poll failed: " ++ e))
    | .resp status body =>
      if status = 404 then .error .SessionTimeout
      else if ! statusIsSuccess status then hosted_poll_loop responses fuel (i + 1)
      else
        match body with
        | .error e => .error (.HostedAuth ("Invalid poll response: " ++ e))
        | .ok .Pending => hosted_poll_loop responses fuel (i + 1)
        | .ok (.Completed access_token) =>
          .ok { access_token := access_token, user_id := 0 }
        | .ok (.Failed error) => .error (.AuthorizationDenied error)

/-- The poll phase of `hosted_login`, started with the full attempt bound. -/
def hosted_login_poll (responses : Nat → PollHttpResult) :
    Except OAuthError TokenResponse :=
  hosted_poll_loop responses POLL_MAX_ATTEMPTS 0

/-- Outcome of `open::that(&start_resp.auth_url)`. -/
inductive BrowserOpenResult where
  | opened : BrowserOpenResult
  | failed (e : String) : BrowserOpenResult
deriving DecidableEq, Repr

/-- The tail of `hosted_login` after `start` has returned: the source runs
`open::that(&start_resp.auth_url).map_err(|e| OAuthError::BrowserOpen(..))?`
and only then enters the poll loop, so a failed browser open aborts the
whole login. -/
def hosted_login_after_start (openResult : BrowserOpenResult)
    (responses : Nat → PollHttpResult) : Except OAuthError TokenResponse :=
  match openResult with
  | .failed e => .error (.BrowserOpen e)
  | .opened => hosted_login_poll responses

/-- Containment of `sub` in `s`, as infix containment of character lists
(used to state what the authorization URLs carry). -/
def containsSubstr (s sub : String) : Prop :=
  sub.data <:+: s.data

instance (s sub : String) : Decidable (containsSubstr s sub) :=
  inferInstanceAs (Decidable (sub.data <:+: s.data))

/-! Helper lemmas about the session store. -/

/-- Unfolding lemma: lookup in a non-empty store. -/
theorem get_session_cons (hd : AuthSession) (tl : SessionStore) (id : String) :
    SessionStore.get_session (hd :: tl) id =
      if hd.id = id then some hd else tl.get_session id := by
  by_cases h : hd.id = id <;> simp [SessionStore.get_session, List.find?, h]

/-- A found session carries the looked-up id. -/
theorem get_session_id (store : SessionStore) (id : String) (s : AuthSession)
    (h : store.get_session id = some s) : s.id = id := by
  have hp := List.find?_some h
  simpa using hp

/-- A found session is a member of the store. -/
theorem get_session_mem (store : SessionStore) (id : String) (s : AuthSession)
    (h : store.get_session id = some s) : s ∈ store :=
  List.mem_of_find?_eq_some h

/-- Lookup after a state write: the entry found before, with its state
replaced when its id is the written one. -/
theorem get_session_set_state (store : SessionStore) (wid id : String) (st : AuthState) :
    (store.set_state wid st).get_session id =
      (store.get_session id).map
        (fun s => if s.id = wid then { s with state := st } else s) := by
  induction store with
  | nil => rfl
  | cons hd tl ih =>
    show SessionStore.get_session
        ((if hd.id = wid then { hd with state := st } else hd) ::
          SessionStore.set_state tl wid st) id = _
    rw [get_session_cons, get_session_cons]
    by_cases hw : hd.id = wid
    · by_cases h : hd.id = id
      · have hiw : id = wid := by rw [← h, hw]
        simp [h, hw, hiw]
      · have hiw : ¬wid = id := fun e => h (hw.trans e)
        simp [h, hw, hiw, ih]
    · by_cases h : hd.id = id
      · have hiw : ¬id = wid := fun e => hw (h.trans e)
        simp [h, hw, hiw]
      · simp [h, hw, ih]

/-- Removal really removes: lookup of a removed id comes back empty. -/
theorem get_session_remove_self (store : SessionStore) (id : String) :
    (store.remove_session id).get_session id = none := by
  induction store with
  | nil => rfl
  | cons hd tl ih =>
    simp only [SessionStore.remove_session, List.filter_cons]
    by_cases h : hd.id = id
    · simpa [h, SessionStore.remove_session] using ih
    · simpa [h, get_session_cons, SessionStore.remove_session] using ih

/-- When the session found for an id is expired and ids are unique, the
sweep leaves no session with that id. -/
theorem get_session_cleanup_of_expired (store : SessionStore) (now : Nat) (id : String)
    (s : AuthSession) (hfind : store.get_session id = some s)
    (hexp : s.is_expired now = true)
    (hnd : (store.map AuthSession.id).Nodup) :
    (store.cleanup_expired now).get_session id = none := by
  rw [SessionStore.get_session, List.find?_eq_none]
  intro a ha hpa
  simp only [SessionStore.cleanup_expired, List.mem_filter] at ha
  have haid : a.id = id := by simpa using hpa
  have hsmem : s ∈ store := get_session_mem _ _ _ hfind
  have hsid : s.id = id := get_session_id _ _ _ hfind
  have hae : a = s :=
    List.inj_on_of_nodup_map hnd ha.1 hsmem (by rw [haid, hsid])
  subst hae
  simp [hexp] at ha

/-! Helper lemmas about the local listener and the hosted poll loop. -/

/-- Once the sender slot is empty, further requests change nothing and each
still receives the static page. -/
theorem run_callbacks_closed (reqs : List LocalCallbackParams) (st : ListenerState)
    (h : st.txSlot = false) :
    run_callbacks st reqs = (st, reqs.map fun _ => CALLBACK_HTML) := by
  induction reqs generalizing st with
  | nil => rfl
  | cons r rest ih =>
    simp [run_callbacks, handle_callback, h, ih st h]

/-- A poll oracle answering Pending forever exhausts any fuel into
`SessionTimeout`. -/
theorem hosted_poll_loop_pending_timeout (responses : Nat → PollHttpResult)
    (h : ∀ i, responses i = .resp 200 (.ok .Pending)) :
    ∀ fuel i, hosted_poll_loop responses fuel i = .error .SessionTimeout := by
  intro fuel
  induction fuel with
  | zero => intro i; rfl
  | succ n ih =>
    intro i
    simp [hosted_poll_loop, h i, statusIsSuccess, ih]

/-! Substring containment lemmas, for the authorization URL claims. -/

/-- Containment via an explicit decomposition of the character list. -/
theorem containsSubstr_of_parts (s pre sub post : String)
    (h : s.data = pre.data ++ sub.data ++ post.data) :
    containsSubstr s sub :=
  ⟨pre.data, post.data, h.symm⟩

/-- Containment transfers through containment of a middle piece. -/
theorem containsSubstr_trans_parts (s pre mid post sub : String)
    (h : s.data = pre.data ++ mid.data ++ post.data)
    (hsub : sub.data <:+: mid.data) :
    containsSubstr s sub := by
  rcases hsub with ⟨a, b, hab⟩
  refine ⟨pre.data ++ a, b ++ post.data, ?_⟩
  rw [h, ← hab]
  simp

/-- Unfolding lemma for `Option.orElse` on a present value. -/
theorem orElse_some {α : Type} (a : α) (f : Unit → Option α) :
    Option.orElse (some a) f = some a := rfl

/-- Unfolding lemma for `Option.orElse` on an absent value. -/
theorem orElse_none {α : Type} (f : Unit → Option α) :
    Option.orElse none f = f () := rfl

/-! Claim theorems. -/

/-- C2: `GET /auth/poll/{session_id}` returns 404 when the session is
absent, otherwise the current state; the handler removes the session from
the store exactly when the returned state is terminal, so polling a
Pending session any number of times never mutates or removes it, and every
poll made after a terminal result has been returned yields 404. -/
theorem poll_auth_contract (store : SessionStore) (id : String) :
    (store.get_session id = none →
      poll_auth store id = (.notFound "Session not found or expired", store)) ∧
    (∀ s, store.get_session id = some s →
      (poll_auth store id).1 = .ok s.state ∧
      (s.state.isTerminal = true →
        (poll_auth store id).2 = store.remove_session id ∧
        poll_auth (poll_auth store id).2 id =
          (.notFound "Session not found or expired", (poll_auth store id).2)) ∧
      (s.state.isTerminal = false → (poll_auth store id).2 = store) ∧
      (s.state = .Pending →
        ∀ n : Nat, (fun st => (poll_auth st id).2)^[n] store = store)) := by
  constructor
  · intro h; simp [poll_auth, h]
  · intro s hs
    refine ⟨?_, ?_, ?_, ?_⟩
    · simp only [poll_auth, hs]
      split <;> rfl
    · intro ht
      have h2 : (poll_auth store id).2 = store.remove_session id := by
        simp [poll_auth, hs, ht]
      refine ⟨h2, ?_⟩
      rw [h2]
      simp [poll_auth, get_session_remove_self store id]
    · intro ht; simp [poll_auth, hs, ht]
    · intro hp
      have hstep : (poll_auth store id).2 = store := by
        simp [poll_auth, hs, hp, AuthState.isTerminal]
      intro n
      induction n with
      | zero => rfl
      | succ k ihk =>
        rw [Function.iterate_succ_apply]
        simpa [hstep] using ihk

/-- Witness: on a store holding one completed session, the poll returns the
completed state and the follow-up poll reports not-found. -/
theorem poll_auth_contract_witness :
    (poll_auth [⟨"a", .Completed "tok", 0⟩] "a").1 = .ok (.Completed "tok") ∧
    (poll_auth (poll_auth [⟨"a", .Completed "tok", 0⟩] "a").2 "a").1 =
      .notFound "Session not found or expired" := by
  have h := (poll_auth_contract [⟨"a", .Completed "tok", 0⟩] "a").2
    ⟨"a", .Completed "tok", 0⟩ (by decide)
  refine ⟨by simpa using h.1, ?_⟩
  rw [(h.2.1 (by decide)).2]

/-- C8: the sweep removes exactly the sessions whose age exceeds the TTL of
300 seconds, regardless of state, and after the purge a poll of the purged
id reports not-found. -/
theorem cleanup_expired_contract (store : SessionStore) (now : Nat) (id : String) :
    SESSION_TTL = 300 ∧
    (∀ s : AuthSession, s ∈ store.cleanup_expired now ↔
      s ∈ store ∧ now - s.created_at ≤ SESSION_TTL) ∧
    (∀ s, store.get_session id = some s → s.is_expired now = true →
      (store.map AuthSession.id).Nodup →
      poll_auth (store.cleanup_expired now) id =
        (.notFound "Session not found or expired", store.cleanup_expired now)) := by
  refine ⟨rfl, ?_, ?_⟩
  · intro s
    simp [SessionStore.cleanup_expired, List.mem_filter, AuthSession.is_expired,
      Nat.not_lt]
  · intro s hs hexp hnd
    have h := get_session_cleanup_of_expired store now id s hs hexp hnd
    simp [poll_auth, h]

/-- Witness: a five-minute-and-one-second old completed session is purged
by the sweep and its poll reports not-found. -/
theorem cleanup_expired_contract_witness :
    ((⟨"a", .Completed "tok", 0⟩ : AuthSession) ∈
        SessionStore.cleanup_expired [⟨"a", .Completed "tok", 0⟩] 301 ↔
      (⟨"a", .Completed "tok", 0⟩ : AuthSession) ∈
        ([⟨"a", .Completed "tok", 0⟩] : SessionStore) ∧ 301 - 0 ≤ SESSION_TTL) ∧
    poll_auth (SessionStore.cleanup_expired [⟨"a", .Completed "tok", 0⟩] 301) "a" =
      (.notFound "Session not found or expired",
        SessionStore.cleanup_expired [⟨"a", .Completed "tok", 0⟩] 301) := by
  refine ⟨(cleanup_expired_contract [⟨"a", .Completed "tok", 0⟩] 301 "a").2.1 _, ?_⟩
  exact (cleanup_expired_contract [⟨"a", .Completed "tok", 0⟩] 301 "a").2.2
    ⟨"a", .Completed "tok", 0⟩ (by decide) (by decide) (by decide)

/-- The store after `auth_callback` is either untouched or has exactly one
id overwritten with a terminal state. -/
theorem auth_callback_store_cases (exchange : String → Except String TokenResponse)
    (store : SessionStore) (params : CallbackParams) :
    (auth_callback exchange store params).store = store ∨
    (∃ wid st, st.isTerminal = true ∧
      (auth_callback exchange store params).store = store.set_state wid st) := by
  unfold auth_callback
  split
  · left; rfl
  · split
    · left; rfl
    · split
      · right; refine ⟨_, _, ?_, rfl⟩; rfl
      · split
        · right; refine ⟨_, _, ?_, rfl⟩; rfl
        · split
          · right; refine ⟨_, _, ?_, rfl⟩; rfl
          · right; refine ⟨_, _, ?_, rfl⟩; rfl

/-- C1 (amended): sessions are created `Pending`, and the callback handler
only ever writes terminal states — a session whose state changes keeps its
id and creation time and ends terminal, so no session re-enters `Pending`;
the handler does not, however, reject a callback for an already-terminal
session (see the counterexample theorem). -/
theorem auth_callback_never_writes_pending
    (exchange : String → Except String TokenResponse) (store : SessionStore)
    (params : CallbackParams) (id sid : String) (now : Nat) (s s' : AuthSession)
    (hs : store.get_session sid = some s)
    (hs' : (auth_callback exchange store params).store.get_session sid = some s') :
    (SessionStore.create_session store id now).2.state = .Pending ∧
    (s' = s ∨
      (s'.state.isTerminal = true ∧ s'.id = s.id ∧ s'.created_at = s.created_at)) := by
  refine ⟨rfl, ?_⟩
  rcases auth_callback_store_cases exchange store params with hsame | ⟨wid, st, hterm, hset⟩
  · rw [hsame, hs] at hs'
    exact .inl (Option.some.inj hs').symm
  · rw [hset, get_session_set_state, hs] at hs'
    have hval : (if s.id = wid then { s with state := st } else s) = s' :=
      Option.some.inj hs'
    by_cases hw : s.id = wid
    · rw [if_pos hw] at hval
      right
      rw [← hval]
      exact ⟨hterm, rfl, rfl⟩
    · rw [if_neg hw] at hval
      exact .inl hval.symm

/-- Witness: a pending session hit by an error callback ends `Failed`, a
terminal state, with id and creation time preserved. -/
theorem auth_callback_never_writes_pending_witness :
    (SessionStore.create_session [] "n" 5).2.state = .Pending ∧
    ((⟨"s", AuthState.Failed "denied", 0⟩ : AuthSession) = ⟨"s", .Pending, 0⟩ ∨
      ((AuthState.Failed "denied").isTerminal = true ∧
        ("s" : String) = "s" ∧ (0 : Nat) = 0)) := by
  exact auth_callback_never_writes_pending (fun _ => .error "unused")
    [⟨"s", .Pending, 0⟩] ⟨none, some "s", some "denied", none⟩ "n" "s" 5
    ⟨"s", .Pending, 0⟩ ⟨"s", .Failed "denied", 0⟩ (by decide) (by decide)

/-- C1 counterexample: a callback arriving for a session whose state is
already `Completed` is not rejected as a no-op — the stored state is
overwritten to `Failed`, moving between two terminal states. -/
theorem auth_callback_overwrites_terminal_state :
    SessionStore.get_session
        (auth_callback (fun _ => .error "unused")
          [⟨"s", .Completed "tok", 0⟩]
          ⟨none, some "s", some "access_denied", none⟩).store "s" =
      some ⟨"s", .Failed "access_denied", 0⟩ ∧
    SessionStore.get_session [(⟨"s", .Completed "tok", 0⟩ : AuthSession)] "s" =
      some ⟨"s", .Completed "tok", 0⟩ := by
  decide

/-- C5: the callback handler renders a terminal error page and mutates
nothing when the state parameter is missing or unknown; otherwise a
provider-reported error writes `Failed` (preferring error_description), a
successful exchange writes `Completed` with the token, a failed exchange
writes `Failed`; and the HTTP response always has status 200 with content
type text/html. -/
theorem auth_callback_response_contract (exchange : String → Except String TokenResponse)
    (store : SessionStore) (params : CallbackParams) :
    ((auth_callback exchange store params).response.status = 200 ∧
      (auth_callback exchange store params).response.contentType = "text/html") ∧
    (params.state = none →
      auth_callback exchange store params =
        ⟨error_html "Missing state parameter", store, none⟩) ∧
    (∀ sid, params.state = some sid → store.get_session sid = none →
      auth_callback exchange store params =
        ⟨error_html "Session not found or expired", store, none⟩) ∧
    (∀ sid s err, params.state = some sid → store.get_session sid = some s →
      params.error = some err →
      auth_callback exchange store params =
        ⟨error_html (params.error_description.getD err),
          store.set_state sid (.Failed (params.error_description.getD err)), none⟩) ∧
    (∀ sid s c token, params.state = some sid → store.get_session sid = some s →
      params.error = none → params.code = some c → exchange c = .ok token →
      auth_callback exchange store params =
        ⟨success_response, store.set_state sid (.Completed token.access_token), some c⟩) ∧
    (∀ sid s c e, params.state = some sid → store.get_session sid = some s →
      params.error = none → params.code = some c → exchange c = .error e →
      auth_callback exchange store params =
        ⟨error_html e, store.set_state sid (.Failed e), some c⟩) := by
  refine ⟨?_, ?_, ?_, ?_, ?_, ?_⟩
  · unfold auth_callback
    split
    · exact ⟨rfl, rfl⟩
    · split
      · exact ⟨rfl, rfl⟩
      · split
        · exact ⟨rfl, rfl⟩
        · split
          · exact ⟨rfl, rfl⟩
          · split
            · exact ⟨rfl, rfl⟩
            · exact ⟨rfl, rfl⟩
  · intro h; simp [auth_callback, h]
  · intro sid h1 h2; simp [auth_callback, h1, h2]
  · intro sid s err h1 h2 h3; simp [auth_callback, h1, h2, h3]
  · intro sid s c token h1 h2 h3 h4 h5; simp [auth_callback, h1, h2, h3, h4, h5]
  · intro sid s c e h1 h2 h3 h4 h5; simp [auth_callback, h1, h2, h3, h4, h5]

/-- Witness: a successful exchange for a pending session yields the success
page and a `Completed` store entry. -/
theorem auth_callback_response_contract_witness :
    auth_callback (fun c => if c = "abc" then .ok ⟨"tok", 7⟩ else .error "bad")
        [⟨"s", .Pending, 0⟩] ⟨some "abc", some "s", none, none⟩ =
      ⟨success_response,
        SessionStore.set_state [⟨"s", .Pending, 0⟩] "s" (.Completed "tok"),
        some "abc"⟩ := by
  exact (auth_callback_response_contract
      (fun c => if c = "abc" then .ok ⟨"tok", 7⟩ else .error "bad")
      [⟨"s", .Pending, 0⟩] ⟨some "abc", some "s", none, none⟩).2.2.2.2.1
    "s" ⟨"s", .Pending, 0⟩ "abc" ⟨"tok", 7⟩ rfl (by decide) rfl rfl (by decide)

/-- C10: in the relay callback an error parameter takes precedence — the
session fails with error_description (falling back to the error value), the
code is never exchanged, and the outcome does not depend on the provider at
all; in the local listener a present code takes precedence and is delivered
as success even alongside an error parameter. -/
theorem callback_error_precedence (exchange exchange2 : String → Except String TokenResponse)
    (store : SessionStore) (params : CallbackParams) (sid : String) (s : AuthSession)
    (err : String) (lp : LocalCallbackParams) (code : String)
    (hst : params.state = some sid) (hget : store.get_session sid = some s)
    (herr : params.error = some err) (hc : lp.code = some code) :
    (auth_callback exchange store params).exchangedCode = none ∧
    (auth_callback exchange store params).store.get_session sid =
      some { s with state := .Failed (params.error_description.getD err) } ∧
    auth_callback exchange store params = auth_callback exchange2 store params ∧
    callbackOutcome lp = .ok code := by
  have hsid : s.id = sid := get_session_id _ _ _ hget
  refine ⟨?_, ?_, ?_, ?_⟩
  · simp [auth_callback, hst, hget, herr]
  · simp [auth_callback, hst, hget, herr, get_session_set_state, hsid]
  · simp [auth_callback, hst, hget, herr]
  · simp [callbackOutcome, hc]

/-- Witness: with both code and error present, the relay exchanges nothing
while the local listener delivers the code. -/
theorem callback_error_precedence_witness :
    (auth_callback (fun _ => .ok ⟨"SHOULD_NOT_BE_USED", 0⟩) [⟨"s", .Pending, 0⟩]
        ⟨some "xyz", some "s", some "denied", none⟩).exchangedCode = none ∧
    callbackOutcome ⟨some "xyz", some "denied", none⟩ = .ok "xyz" := by
  have h := callback_error_precedence (fun _ => .ok ⟨"SHOULD_NOT_BE_USED", 0⟩)
    (fun _ => .error "other") [⟨"s", .Pending, 0⟩]
    ⟨some "xyz", some "s", some "denied", none⟩ "s" ⟨"s", .Pending, 0⟩
    "denied" ⟨some "xyz", some "denied", none⟩ "xyz" rfl (by decide) rfl rfl
  exact ⟨h.1, h.2.2.2⟩

/-- C3: delivery in `wait_for_callback` is take-once — the first `/callback`
request consumes the sender and delivers exactly its outcome; every later
request still receives the static page and produces no second delivery (the
handler is a total function, so no panic or deadlock); and the select race
resolves each invocation to exactly one of the delivered outcome, a
closed-channel failure, or a `ServerShutdown` failure. -/
theorem wait_for_callback_take_once (r : LocalCallbackParams)
    (rest : List LocalCallbackParams) :
    ((run_callbacks ListenerState.init (r :: rest)).1.delivered =
      [callbackOutcome r]) ∧
    ((run_callbacks ListenerState.init (r :: rest)).1.txSlot = false) ∧
    ((run_callbacks ListenerState.init (r :: rest)).2 =
      (r :: rest).map fun _ => CALLBACK_HTML) ∧
    (∀ res, wait_for_callback_result (.delivery res) = res) ∧
    (wait_for_callback_result .serverExit = .error .ServerShutdown) ∧
    (∀ ev : RaceEvent,
      (∃ res, ev = .delivery res) ∨ ev = .channelClosed ∨ ev = .serverExit) := by
  have h1 : handle_callback ListenerState.init r =
      ({ txSlot := false, delivered := [callbackOutcome r] }, CALLBACK_HTML) := by
    simp [handle_callback, ListenerState.init]
  have h2 := run_callbacks_closed rest
    { txSlot := false, delivered := [callbackOutcome r] } rfl
  refine ⟨?_, ?_, ?_, fun res => rfl, rfl, ?_⟩
  · simp [run_callbacks, h1, h2]
  · simp [run_callbacks, h1, h2]
  · simp [run_callbacks, h1, h2]
  · intro ev
    cases ev with
    | delivery res => exact .inl ⟨res, rfl⟩
    | channelClosed => exact .inr (.inl rfl)
    | serverExit => exact .inr (.inr rfl)

/-- C4 (amended): in the hosted flow a failed browser open is fatal — the
login aborts with a `BrowserOpen` error and never reaches the poll loop;
only a successful open continues into polling. -/
theorem hosted_login_browser_open_fatal (e : String)
    (responses : Nat → PollHttpResult) :
    hosted_login_after_start (.failed e) responses = .error (.BrowserOpen e) ∧
    hosted_login_after_start .opened responses = hosted_login_poll responses :=
  ⟨rfl, rfl⟩

/-- C4 counterexample: even when every poll would immediately return
`Completed`, a failed browser open makes the hosted login fail with
`BrowserOpen` instead of continuing to the token. -/
theorem hosted_login_browser_open_not_nonfatal :
    hosted_login_after_start (.failed "boom")
        (fun _ => .resp 200 (.ok (.Completed "tok"))) =
      .error (.BrowserOpen "boom") ∧
    hosted_login_after_start .opened
        (fun _ => .resp 200 (.ok (.Completed "tok"))) = .ok ⟨"tok", 0⟩ := by
  decide

/-- C6: the poll loop runs at a fixed 2-second interval for 150 attempts;
404 yields `SessionTimeout`, `Completed` returns the token, `Failed` yields
`AuthorizationDenied`, `Pending` and non-success HTTP statuses continue to
the next bounded attempt, and exhausting all attempts yields
`SessionTimeout`. -/
theorem hosted_poll_loop_contract (responses : Nat → PollHttpResult) :
    (POLL_INTERVAL_SECS = 2 ∧ POLL_MAX_ATTEMPTS = 150 ∧
      hosted_login_poll responses = hosted_poll_loop responses 150 0) ∧
    (∀ fuel i body, responses i = .resp 404 body →
      hosted_poll_loop responses (fuel + 1) i = .error .SessionTimeout) ∧
    (∀ fuel i st tok, responses i = .resp st (.ok (.Completed tok)) →
      statusIsSuccess st = true → st ≠ 404 →
      hosted_poll_loop responses (fuel + 1) i = .ok ⟨tok, 0⟩) ∧
    (∀ fuel i st err, responses i = .resp st (.ok (.Failed err)) →
      statusIsSuccess st = true → st ≠ 404 →
      hosted_poll_loop responses (fuel + 1) i =
        .error (.AuthorizationDenied err)) ∧
    (∀ fuel i st, responses i = .resp st (.ok .Pending) →
      statusIsSuccess st = true → st ≠ 404 →
      hosted_poll_loop responses (fuel + 1) i =
        hosted_poll_loop responses fuel (i + 1)) ∧
    (∀ fuel i st body, responses i = .resp st body →
      statusIsSuccess st = false → st ≠ 404 →
      hosted_poll_loop responses (fuel + 1) i =
        hosted_poll_loop responses fuel (i + 1)) ∧
    (∀ i, hosted_poll_loop responses 0 i = .error .SessionTimeout) ∧
    ((∀ i, responses i = .resp 200 (.ok .Pending)) →
      hosted_login_poll responses = .error .SessionTimeout) := by
  refine ⟨⟨rfl, rfl, rfl⟩, ?_, ?_, ?_, ?_, ?_, fun i => rfl, ?_⟩
  · intro fuel i body h; simp [hosted_poll_loop, h]
  · intro fuel i st tok h hsucc h404; simp [hosted_poll_loop, h, hsucc, h404]
  · intro fuel i st err h hsucc h404; simp [hosted_poll_loop, h, hsucc, h404]
  · intro fuel i st h hsucc h404; simp [hosted_poll_loop, h, hsucc, h404]
  · intro fuel i st body h hsucc h404; simp [hosted_poll_loop, h, hsucc, h404]
  · intro h
    exact hosted_poll_loop_pending_timeout responses h POLL_MAX_ATTEMPTS 0

/-- Witness: a 404 answer gives `SessionTimeout`, a completed answer gives
the token, and a forever-pending server exhausts the bound into
`SessionTimeout`. -/
theorem hosted_poll_loop_contract_witness :
    hosted_poll_loop (fun _ => .resp 404 (.ok .Pending)) 150 0 =
      .error .SessionTimeout ∧
    hosted_poll_loop (fun _ => .resp 200 (.ok (.Completed "tok"))) 150 0 =
      .ok ⟨"tok", 0⟩ ∧
    hosted_login_poll (fun _ => .resp 200 (.ok .Pending)) =
      .error .SessionTimeout := by
  refine ⟨?_, ?_,
    (hosted_poll_loop_contract (fun _ => .resp 200 (.ok .Pending))).2.2.2.2.2.2.2
      (fun i => rfl)⟩
  · exact (hosted_poll_loop_contract (fun _ => .resp 404 (.ok .Pending))).2.1
      149 0 (.ok .Pending) rfl
  · exact (hosted_poll_loop_contract
        (fun _ => .resp 200 (.ok (.Completed "tok")))).2.2.1
      149 0 200 "tok" rfl (by decide) (by decide)

/-- C7: rate-limit key extraction never fails a request and tries, in
order, the first valid address of X-Forwarded-For, then X-Real-IP, then the
for= parameter of a Forwarded header, then the transport peer address, and
finally falls back to 127.0.0.1; whenever X-Forwarded-For yields a first
valid address, that address is the key, whatever other headers say. -/
theorem fallback_ip_key_extractor_contract (parse : String → Option IpAddr)
    (req : RateLimitRequest) :
    (∃ ip, FallbackIpKeyExtractor.extract parse req = .ok ip) ∧
    (∀ ip, maybe_x_forwarded_for parse req.headers = some ip →
      FallbackIpKeyExtractor.extract parse req = .ok ip) ∧
    (maybe_x_forwarded_for parse req.headers = none →
      ∀ ip, maybe_x_real_ip parse req.headers = some ip →
        FallbackIpKeyExtractor.extract parse req = .ok ip) ∧
    (maybe_x_forwarded_for parse req.headers = none →
      maybe_x_real_ip parse req.headers = none →
      ∀ ip, maybe_forwarded parse req.headers = some ip →
        FallbackIpKeyExtractor.extract parse req = .ok ip) ∧
    (maybe_x_forwarded_for parse req.headers = none →
      maybe_x_real_ip parse req.headers = none →
      maybe_forwarded parse req.headers = none →
      ∀ ip, req.peer_addr = some ip →
        FallbackIpKeyExtractor.extract parse req = .ok ip) ∧
    (maybe_x_forwarded_for parse req.headers = none →
      maybe_x_real_ip parse req.headers = none →
      maybe_forwarded parse req.headers = none →
      req.peer_addr = none →
      FallbackIpKeyExtractor.extract parse req = .ok (.v4 127 0 0 1)) := by
  refine ⟨⟨_, rfl⟩, ?_, ?_, ?_, ?_, ?_⟩
  · intro ip h
    simp [FallbackIpKeyExtractor.extract, h, orElse_some]
  · intro h1 ip h
    simp [FallbackIpKeyExtractor.extract, h1, h, orElse_some, orElse_none]
  · intro h1 h2 ip h
    simp [FallbackIpKeyExtractor.extract, h1, h2, h, orElse_some, orElse_none]
  · intro h1 h2 h3 ip h
    simp [FallbackIpKeyExtractor.extract, h1, h2, h3, h, orElse_some, orElse_none]
  · intro h1 h2 h3 h4
    simp [FallbackIpKeyExtractor.extract, h1, h2, h3, h4, orElse_none]

/-- Witness: with X-Forwarded-For absent and X-Real-IP present, the key is
the parsed X-Real-IP address. -/
theorem fallback_ip_key_extractor_contract_witness :
    FallbackIpKeyExtractor.extract (fun _ => some (.v4 9 9 9 9))
        { headers :=
            { x_forwarded_for := none, x_real_ip := some "9.9.9.9",
              forwarded := none },
          peer_addr := none } = .ok (.v4 9 9 9 9) := by
  exact (fallback_ip_key_extractor_contract (fun _ => some (.v4 9 9 9 9))
      { headers :=
          { x_forwarded_for := none, x_real_ip := some "9.9.9.9",
            forwarded := none },
        peer_addr := none }).2.2.1 rfl (.v4 9 9 9 9) rfl

set_option maxRecDepth 8192 in
/-- C9 (amended): the relay authorization URL contains the client id, the
percent-encoded redirect URI, the fixed scope set, response_type=code, and
state = state_token, and the relay state token is the session id returned
by start; the local-flow authorization URL contains the same components
except that it carries no state parameter at all (shown for the test
configuration). -/
theorem authorization_url_components (c : OAuthConfig) (lc : LocalOAuthConfig)
    (state : String) :
    containsSubstr (c.authorization_url state) c.client_id ∧
    containsSubstr (c.authorization_url state) (urlencode c.redirect_uri) ∧
    containsSubstr (c.authorization_url state)
      "scope=threads_basic,threads_read_replies,threads_manage_replies,threads_content_publish" ∧
    containsSubstr (c.authorization_url state) "response_type=code" ∧
    containsSubstr (c.authorization_url state) ("state=" ++ state) ∧
    (∀ store id now, (start_auth store c id now).2.auth_url =
      c.authorization_url (start_auth store c id now).2.session_id) ∧
    containsSubstr lc.authorization_url lc.client_id ∧
    containsSubstr lc.authorization_url (urlencode lc.redirect_uri) ∧
    containsSubstr lc.authorization_url
      "scope=threads_basic,threads_read_replies,threads_manage_replies,threads_content_publish" ∧
    containsSubstr lc.authorization_url "response_type=code" ∧
    ¬ containsSubstr
        (LocalOAuthConfig.authorization_url
          (LocalOAuthConfig.new "test_client_id" "test_client_secret"))
        "state=" := by
  refine ⟨?_, ?_, ?_, ?_, ?_, fun store id now => rfl, ?_, ?_, ?_, ?_, by decide⟩
  · refine containsSubstr_of_parts _
      "https://threads.net/oauth/authorize?client_id=" _
      ("&redirect_uri=" ++ urlencode c.redirect_uri ++
        "&scope=threads_basic,threads_read_replies,threads_manage_replies,threads_content_publish&response_type=code&state=" ++
        state) ?_
    simp [OAuthConfig.authorization_url, String.data_append, List.append_assoc]
  · refine containsSubstr_of_parts _
      ("https://threads.net/oauth/authorize?client_id=" ++ c.client_id ++
        "&redirect_uri=") _
      ("&scope=threads_basic,threads_read_replies,threads_manage_replies,threads_content_publish&response_type=code&state=" ++
        state) ?_
    simp [OAuthConfig.authorization_url, String.data_append, List.append_assoc]
  · refine containsSubstr_trans_parts _
      ("https://threads.net/oauth/authorize?client_id=" ++ c.client_id ++
        "&redirect_uri=" ++ urlencode c.redirect_uri)
      "&scope=threads_basic,threads_read_replies,threads_manage_replies,threads_content_publish&response_type=code&state="
      state _ ?_ (by decide)
    simp [OAuthConfig.authorization_url, String.data_append, List.append_assoc]
  · refine containsSubstr_trans_parts _
      ("https://threads.net/oauth/authorize?client_id=" ++ c.client_id ++
        "&redirect_uri=" ++ urlencode c.redirect_uri)
      "&scope=threads_basic,threads_read_replies,threads_manage_replies,threads_content_publish&response_type=code&state="
      state _ ?_ (by decide)
    simp [OAuthConfig.authorization_url, String.data_append, List.append_assoc]
  · refine containsSubstr_of_parts _
      ("https://threads.net/oauth/authorize?client_id=" ++ c.client_id ++
        "&redirect_uri=" ++ urlencode c.redirect_uri ++
        "&scope=threads_basic,threads_read_replies,threads_manage_replies,threads_content_publish&response_type=code&")
      ("state=" ++ state) "" ?_
    have hsplit :
        ("&scope=threads_basic,threads_read_replies,threads_manage_replies,threads_content_publish&response_type=code&state=" :
            String).data =
          ("&scope=threads_basic,threads_read_replies,threads_manage_replies,threads_content_publish&response_type=code&" :
            String).data ++ ("state=" : String).data := by
      decide
    simp [OAuthConfig.authorization_url, String.data_append, List.append_assoc, hsplit]
  · refine containsSubstr_of_parts _
      "https://threads.net/oauth/authorize?client_id=" _
      ("&redirect_uri=" ++ urlencode lc.redirect_uri ++
        "&scope=threads_basic,threads_read_replies,threads_manage_replies,threads_content_publish&response_type=code") ?_
    simp [LocalOAuthConfig.authorization_url, String.data_append, List.append_assoc]
  · refine containsSubstr_of_parts _
      ("https://threads.net/oauth/authorize?client_id=" ++ lc.client_id ++
        "&redirect_uri=") _
      "&scope=threads_basic,threads_read_replies,threads_manage_replies,threads_content_publish&response_type=code" ?_
    simp [LocalOAuthConfig.authorization_url, String.data_append, List.append_assoc]
  · refine containsSubstr_trans_parts _
      ("https://threads.net/oauth/authorize?client_id=" ++ lc.client_id ++
        "&redirect_uri=" ++ urlencode lc.redirect_uri)
      "&scope=threads_basic,threads_read_replies,threads_manage_replies,threads_content_publish&response_type=code"
      "" _ ?_ (by decide)
    simp [LocalOAuthConfig.authorization_url, String.data_append, List.append_assoc]
  · refine containsSubstr_trans_parts _
      ("https://threads.net/oauth/authorize?client_id=" ++ lc.client_id ++
        "&redirect_uri=" ++ urlencode lc.redirect_uri)
      "&scope=threads_basic,threads_read_replies,threads_manage_replies,threads_content_publish&response_type=code"
      "" _ ?_ (by decide)
    simp [LocalOAuthConfig.authorization_url, String.data_append, List.append_assoc]

set_option maxRecDepth 8192 in
/-- C9 counterexample: the local-flow authorization URL of the test
configuration carries no state parameter at all — in particular it does not
contain state=csrf for the state token csrf. -/
theorem local_authorization_url_no_state :
    ¬ containsSubstr
        (LocalOAuthConfig.authorization_url
          (LocalOAuthConfig.new "test_client_id" "test_client_secret"))
        ("state=" ++ "csrf") ∧
    ¬ containsSubstr
        (LocalOAuthConfig.authorization_url
          (LocalOAuthConfig.new "test_client_id" "test_client_secret"))
        "state=" := by
  decide

end Ndl
